import Mathlib

/-!
Verification of the chatbot response-routing logic, the remote-responder
fallback chain, and the synthetic simulation helpers of the
Protein-Folding dashboard (source files `protein_folding_app.py` and
`ai_backends.py`).

The embedding is shallow:
* Python strings are Lean `String`s; `str.lower`, `str.upper`, `str.strip`,
  slicing and `in` are re-implemented on `List Char` so that every
  definition reduces inside the kernel.
* The regex patterns of the knowledge base all have the shape
  `\b lit (.* lit)* \b` (a word-boundary-anchored sequence of literal
  segments separated by `.*`).  Such a pattern is represented by its list
  of literal segments, and `reSearch` implements the semantics of Python
  `re.search` for exactly this fragment: some occurrence of the segments
  in order, the first segment preceded by a word boundary and the last
  followed by one.  Every literal segment in the table starts and ends
  with a word character, so the boundary test reduces to inspecting the
  neighbouring character.
* The session context dictionary is a structure with the three keys the
  code reads (`current_protein`, `vqe_results`, `last_analysis`), each an
  optional string (`none` models an absent/None entry).
* The two remote providers perform network IO; a provider call is
  modelled as a value of `Except String String` (`.error e` models the
  call raising an exception whose `str` is `e`).
* Python floats are modelled as exact rationals.
All response texts are embedded verbatim from the source.
-/

/-- Python `\w` on the ASCII queries handled here: letters, digits, underscore. -/
def isWordChar (c : Char) : Bool := c.isAlphanum || c = '_'

/-- Python `str.lower` (ASCII). -/
def strLower (s : String) : String := ⟨s.toList.map Char.toLower⟩

/-- Python `str.upper` (ASCII). -/
def strUpper (s : String) : String := ⟨s.toList.map Char.toUpper⟩

/-- Python `str.strip`: drop whitespace from both ends. -/
def strStrip (s : String) : String :=
  ⟨((s.toList.dropWhile Char.isWhitespace).reverse.dropWhile Char.isWhitespace).reverse⟩

/-- Python slicing `s[:n]`: the first `n` characters. -/
def strTake (s : String) (n : Nat) : String := ⟨s.toList.take n⟩

/-- All suffixes of a character list, longest first (the list itself is included,
as is the empty suffix). -/
def suffixesOf : List Char → List (List Char)
  | [] => [[]]
  | c :: t => (c :: t) :: suffixesOf t

/-- Python `needle in hay` for strings: some suffix of `hay` starts with `needle`. -/
def strContainsSub (hay needle : String) : Bool :=
  (suffixesOf hay.toList).any (fun t => needle.toList.isPrefixOf t)

/-- Word-boundary test after the final literal segment of a pattern: the rest of
the input must be empty or start with a non-word character. -/
def tailBoundaryOk : List Char → Bool
  | [] => true
  | c :: _ => !(isWordChar c)

/-- Match the remaining literal segments of a `\b…\b` pattern anywhere (in order)
in the input; after the final segment a word boundary must follow. -/
def segsTail : List (List Char) → List Char → Bool
  | [], s => tailBoundaryOk s
  | seg :: rest, s =>
    (suffixesOf s).any (fun t => seg.isPrefixOf t && segsTail rest (t.drop seg.length))

/-- All positions of the input, as pairs (previous character is a word character,
suffix starting here).  `p` is the word-character status of the character just
before the current position (`false` at the start of the string). -/
def posPrev : List Char → Bool → List (Bool × List Char)
  | [], p => [(p, [])]
  | c :: t, p => (p, c :: t) :: posPrev t (isWordChar c)

/-- Python `re.search` for a pattern of the shape `\b L₁ .* L₂ .* … Lₖ \b`
given by its literal segments `segs` (each starting and ending with a word
character): some position with a word boundary before it starts `L₁`, the other
segments follow in order with arbitrary gaps, and a word boundary follows `Lₖ`. -/
def reSearch (segs : List (List Char)) (q : List Char) : Bool :=
  match segs with
  | [] => true
  | seg :: rest =>
    (posPrev q false).any (fun pr => !pr.1 && seg.isPrefixOf pr.2 && segsTail rest (pr.2.drop seg.length))

/-- Does any pattern in the pattern list of a rule match the normalized query? -/
def ruleMatches (pats : List (List String)) (ql : String) : Bool :=
  pats.any (fun p => reSearch (p.map String.toList) ql.toList)

/-- The session chat context: the three keys read by the code, each possibly
absent (`none` models both a missing key and a `None` value). -/
structure Ctx where
  current_protein : Option String
  vqe_results : Option String
  last_analysis : Option String

/-- A pattern rule of the knowledge base: regex matchers (each as its literal
segments) and the response string (a literal, or one of the two sentinels
`CONTEXT_VQE_RESULTS` / `CONTEXT_PROTEIN_SEQUENCE`). -/
structure Rule where
  patterns : List (List String)
  response : String

def pats_vqe_what : List (List String) := [["what", "vqe"], ["vqe", "is"], ["explain", "vqe"], ["define", "vqe"], ["tell", "about", "vqe"]]
def resp_vqe_what : String := "**VQE (Variational Quantum Eigensolver)** 🔬\n\nVQE is a hybrid quantum-classical algorithm designed to find the ground state energy of molecular systems.\n\n**How it works:**\n1️⃣ Prepare a quantum state using parameterized circuit (ansatz)\n2️⃣ Measure energy expectation value on quantum computer\n3️⃣ Classical optimizer updates circuit parameters\n4️⃣ Repeat until convergence to ground state\n\n**Why it\x27s revolutionary:**\n✅ Works on noisy intermediate-scale quantum (NISQ) devices\n✅ Finds lowest energy conformations\n✅ Essential for protein folding & drug discovery\n✅ Combines quantum power with classical optimization"
def pats_vqe_how : List (List String) := [["how", "vqe", "work"], ["vqe", "process"], ["vqe", "algorithm"], ["vqe", "steps"]]
def resp_vqe_how : String := "**VQE Algorithm Detailed Process:** ⚙️\n\n**Step 1: Initialize**\n- Start with random parameters θ for quantum circuit\n\n**Step 2: Prepare Quantum State**\n- Build ansatz circuit with current parameters\n- Create superposition of protein conformations\n\n**Step 3: Measure Energy**\n- Calculate expectation value ⟨H⟩\n- H is the Hamiltonian (energy operator)\n\n**Step 4: Classical Optimization**\n- Optimizer (COBYLA/SLSQP/L-BFGS-B) updates θ\n- Goal: Minimize energy\n\n**Step 5: Iterate**\n- Repeat until convergence (energy stops decreasing)\n\n**Key Components:**\n🔹 **Ansatz**: Quantum circuit template\n🔹 **Hamiltonian**: Protein energy landscape\n🔹 **Optimizer**: Classical minimization algorithm"
def pats_vqe_results_check : List (List String) := [["result"], ["energy"], ["output"], ["final", "energy"], ["show", "result"]]
def resp_vqe_results_check : String := "CONTEXT_VQE_RESULTS"
def pats_protein_folding : List (List String) := [["protein", "fold"], ["folding", "process"], ["how", "protein", "fold"], ["folding", "mechanism"]]
def resp_protein_folding : String := "**Protein Folding Process** 🧬\n\nProteins fold from linear chains into complex 3D structures through multiple forces:\n\n**1. Hydrophobic Effect** 💧\n- Non-polar residues cluster inside\n- Avoids unfavorable water contact\n- Primary driving force\n\n**2. Hydrogen Bonding** 🔗\n- Forms α-helices and β-sheets\n- Stabilizes secondary structure\n- Creates backbone interactions\n\n**3. Van der Waals Forces** ⚡\n- Weak but numerous\n- Fine-tune structure\n- Stabilize final conformation\n\n**4. Electrostatic Interactions** ➕➖\n- Charged amino acids attract/repel\n- Salt bridges form\n- Long-range effects\n\n**5. Disulfide Bonds** 🔐\n- Covalent S-S bonds (cysteines)\n- Strong structural locks\n- Common in extracellular proteins\n\n**Energy Landscape:**\n🎯 Proteins fold to **minimize free energy**\n🎯 Native state = **global energy minimum**\n⚠️ Misfolding = trapped in **local minima**\n\n**Levinthal\x27s Paradox:**\nClassical computers struggle with astronomical number of conformations (3^N).\nQuantum computing offers exponential speedup! 🚀"
def pats_protein_sequence_check : List (List String) := [["sequence"], ["amino", "acid"], ["current", "protein"], ["loaded", "protein"], ["my", "protein"]]
def resp_protein_sequence_check : String := "CONTEXT_PROTEIN_SEQUENCE"
def pats_protein_structure : List (List String) := [["3d", "structure"], ["structure", "protein"], ["backbone"], ["conformation"], ["tertiary"]]
def resp_protein_structure : String := "**Protein Structure Hierarchy** 🏗️\n\n**Primary Structure (1°)** \n- Linear amino acid sequence\n- Example: ACDEFGHIKL...\n- Determined by genetics\n\n**Secondary Structure (2°)** \n- Local folding patterns\n- **α-helix**: Right-handed spiral, stabilized by H-bonds\n- **β-sheet**: Extended strands, parallel/antiparallel\n- **Random coils**: Irregular regions\n\n**Tertiary Structure (3°)** \n- Overall 3D shape of polypeptide\n- Determined by side chain interactions\n- Critical for biological function\n- What VQE helps predict! 🎯\n\n**Quaternary Structure (4°)** \n- Multiple polypeptides assembled\n- Example: Hemoglobin (4 subunits)\n- Complex molecular machines\n\n**Key Insight:**\n💡 **Structure = Function**\nEven small misfolding can cause disease!"
def pats_quantum_advantage : List (List String) := [["quantum", "advantage"], ["why", "quantum"], ["quantum", "better"], ["quantum", "vs", "classical"]]
def resp_quantum_advantage : String := "**Quantum Advantage for Protein Folding** ⚛️\n\n**Why Quantum Computing Helps:**\n\n**1. Natural Representation** 🌊\n- Proteins ARE quantum systems\n- Quantum computers simulate quantum behavior directly\n- No approximations needed\n\n**2. Exponential State Space** 📈\n- N qubits represent 2^N states simultaneously\n- Classical: explores 1 state at a time\n- Quantum: explores all states in superposition\n\n**3. Quantum Tunneling** 🌀\n- Can escape local energy minima\n- Finds global minimum more efficiently\n- Avoids getting \"stuck\"\n\n**4. Entanglement** 🔗\n- Correlates amino acid interactions\n- Captures long-range effects\n- Natural for protein physics\n\n**Speedup Potential:**\n🔴 Classical: O(3^N) - exponential time\n🟢 Quantum: Polynomial or exponential speedup\n\n**Current Reality:**\n⚠️ NISQ devices: Limited qubits (~50-127)\n⚠️ Noise affects accuracy\n✅ VQE is practical TODAY on current hardware!"
def pats_qubits : List (List String) := [["qubit"], ["quantum", "bit"], ["how", "many", "qubit"], ["qubit", "need"]]
def resp_qubits : String := "**Qubits in Protein Folding** 🔢\n\n**What is a Qubit?**\n- Quantum bit: Basic unit of quantum information\n- Can be |0⟩, |1⟩, or superposition: α|0⟩ + β|1⟩\n- Unlike classical bits (only 0 or 1)\n- Can be entangled with other qubits\n\n**Encoding Protein Conformation:**\n- Each backbone turn/angle → 3 qubits\n- For N amino acids → ~(N-1)×3 qubits needed\n- Example: 10 residue protein → 27 qubits\n\n**Current Quantum Hardware:**\n🔹 IBM Eagle: 127 qubits\n🔹 Google Sycamore: 70 qubits  \n🔹 This dashboard: Simulates 10-30 qubit systems\n\n**Scaling Challenge:**\n⚠️ Real proteins: 100-1000+ residues\n⚠️ Would need 300-3000+ qubits\n🚀 Future quantum computers will handle larger proteins\n\n**For now:**\nWe focus on small peptides and domains for validation!"
def pats_ansatz : List (List String) := [["ansatz"], ["circuit", "template"], ["efficient", "su2"], ["real", "amplitude"], ["two", "local"]]
def resp_ansatz : String := "**Ansatz Types (Quantum Circuit Templates)** 🔧\n\n**1. EfficientSU2** ⭐\n- **Use**: General-purpose, high expressiveness\n- **Gates**: RY, RZ rotations + CX entangling gates\n- **Pros**: Captures complex correlations\n- **Cons**: Many parameters, may overfit\n- **Best for**: Accurate production runs\n\n**2. RealAmplitudes** 🚀\n- **Use**: Fast explorations\n- **Gates**: RY rotations + CX gates only\n- **Pros**: Fewer parameters, faster optimization\n- **Cons**: Less expressive\n- **Best for**: Initial testing, quick results\n\n**3. TwoLocal** 🎯\n- **Use**: Customizable balance\n- **Gates**: Choose your own (RY/RZ, CX/CZ)\n- **Pros**: Flexible, tunable complexity\n- **Cons**: Requires domain knowledge\n- **Best for**: Fine-tuning specific systems\n\n**Choosing an Ansatz:**\n🎬 Start: RealAmplitudes (fast)\n🎯 Production: EfficientSU2 (accurate)\n🔧 Advanced: TwoLocal (customized)\n\n**Layers:**\nMore layers = more expressiveness\nBut also = slower optimization\nStart with 2-3 layers!"
def pats_optimizer : List (List String) := [["optimizer"], ["cobyla"], ["slsqp"], ["l-bfgs-b"], ["which", "optimizer"]]
def resp_optimizer : String := "**Classical Optimizers for VQE** 🎯\n\n**1. COBYLA** 🐢\n(Constrained Optimization BY Linear Approximation)\n- **Type**: Derivative-free\n- **Speed**: Slowest\n- **Robustness**: Most robust to noise\n- **Best for**: Real quantum hardware (noisy)\n- **When**: NISQ devices, experimental runs\n\n**2. SLSQP** ⚡\n(Sequential Least SQuares Programming)\n- **Type**: Gradient-based\n- **Speed**: Medium\n- **Robustness**: Moderate\n- **Best for**: Balanced approach\n- **When**: Mixed scenarios\n\n**3. L-BFGS-B** 🚀\n(Limited-memory BFGS Bounded)\n- **Type**: Quasi-Newton, gradient-based\n- **Speed**: Fastest convergence\n- **Robustness**: Requires smooth landscape\n- **Best for**: Simulators (noise-free)\n- **When**: Development, testing\n\n**Decision Guide:**\n📊 **Simulator**: L-BFGS-B (fastest)\n🔬 **Real Quantum**: COBYLA (most robust)\n⚖️ **Middle Ground**: SLSQP\n\n**Iterations:**\n- 50-100: Quick testing\n- 200-300: Production\n- 500+: High precision"
def pats_diseases : List (List String) := [["disease"], ["alzheimer"], ["parkinson"], ["huntington"], ["misfolding", "disease"]]
def resp_diseases : String := "**Protein Misfolding Diseases** 🏥\n\n**1. Alzheimer\x27s Disease** 🧠\n- **Proteins**: Amyloid-β, Tau\n- **Mechanism**: Plaques and tangles accumulate\n- **Result**: Neurodegeneration, memory loss\n- **Treatments**: \n  - Aducanumab (antibody therapy)\n  - Lecanemab (removes plaques)\n  - Cholinesterase inhibitors\n\n**2. Parkinson\x27s Disease** 🤝\n- **Protein**: α-synuclein\n- **Mechanism**: Lewy bodies in dopamine neurons\n- **Result**: Motor impairment, tremors\n- **Treatments**:\n  - Levodopa (dopamine precursor)\n  - Dopamine agonists\n  - MAO-B inhibitors\n\n**3. Huntington\x27s Disease** 🧬\n- **Protein**: Huntingtin with CAG repeats\n- **Mechanism**: Toxic aggregates\n- **Result**: Progressive brain damage\n- **Treatments**:\n  - Tetrabenazine (symptom management)\n  - Gene therapy (experimental)\n\n**Why Misfolding Causes Disease:**\n1. ❌ Loss of normal protein function\n2. ☠️ Toxic gain of function (aggregation)\n3. 💥 Cellular stress and death\n4. 📉 Progressive neurodegeneration\n\n**Quantum Computing Role:**\n🎯 Predict correct folding\n🎯 Design drugs to prevent misfolding\n🎯 Accelerate drug discovery (years → months)"
def pats_how_to_use : List (List String) := [["how", "use"], ["get", "started"], ["tutorial"], ["help", "dashboard"], ["guide"]]
def resp_how_to_use : String := "**Dashboard User Guide** 📖\n\n**🏠 HOME PAGE**\n1. Choose input method:\n   - Manual Entry: Type sequence\n   - Load Dataset: Pre-loaded samples\n   - PDB ID: Fetch from Protein Data Bank\n   - UniProt ID: Fetch from UniProt\n2. Validate sequence\n3. Proceed to Configuration\n\n**⚙️ CONFIGURATION PAGE**\n1. Select ansatz (EfficientSU2, RealAmplitudes, TwoLocal)\n2. Choose optimizer (COBYLA, SLSQP, L-BFGS-B)\n3. Set iterations (50-500)\n4. Adjust Hamiltonian weights (λc, λg, λd, λi)\n5. Save configuration\n\n**🚀 RUN VQE PAGE**\n1. Click \"Start VQE Optimization\"\n2. Watch real-time progress bar\n3. View energy convergence\n4. Wait for completion\n\n**📊 RESULTS PAGE**\n1. View final energy & metrics\n2. Analyze convergence plot\n3. Explore 3D protein structure\n4. Compare quantum vs classical\n5. Download results (coming soon)\n\n**🧬 ANALYSIS PAGE**\n1. Learn about protein functions\n2. Explore disease associations\n3. View misfolding impact\n4. Get prediction confidence\n\n**💬 AI ASSISTANT**\nAvailable on ALL pages - just ask! 😊"
def pats_greeting : List (List String) := [["hello"], ["hi"], ["hey"], ["greetings"], ["good", "morning"], ["good", "evening"]]
def resp_greeting : String := "Hello! 👋 Welcome to the Quantum Protein Folding Dashboard!\n\nI\x27m your **Built-in AI Assistant** - no API keys required! \n\n**I can help you with:**\n🧬 **VQE Algorithm** - How it works, parameters, results\n🔬 **Protein Folding** - Mechanisms, forces, structure\n⚛️ **Quantum Computing** - Qubits, circuits, advantage\n⚙️ **Configuration** - Ansatz, optimizers, settings\n🏥 **Diseases** - Misfolding diseases & treatments\n📊 **Dashboard Usage** - Step-by-step guidance\n\n**Quick Starts:**\n- \"What is VQE?\"\n- \"How do proteins fold?\"\n- \"Show me my results\"\n- \"Which optimizer should I use?\"\n- \"Help me get started\"\n\nWhat would you like to know? 🤔"
def pats_thanks : List (List String) := [["thank"], ["thanks"], ["appreciate"], ["thank you"]]
def resp_thanks : String := "You\x27re very welcome! 😊 Feel free to ask anything else about quantum protein folding, VQE, or the dashboard. I\x27m here to help! 💪"
def pats_goodbye : List (List String) := [["bye"], ["goodbye"], ["see you"], ["see ya"]]
def resp_goodbye : String := "Goodbye! 👋 Thanks for using the Quantum Protein Folding Dashboard. Come back anytime! 🚀"
def kbRules : List Rule := [Rule.mk pats_vqe_what resp_vqe_what, Rule.mk pats_vqe_how resp_vqe_how, Rule.mk pats_vqe_results_check resp_vqe_results_check, Rule.mk pats_protein_folding resp_protein_folding, Rule.mk pats_protein_sequence_check resp_protein_sequence_check, Rule.mk pats_protein_structure resp_protein_structure, Rule.mk pats_quantum_advantage resp_quantum_advantage, Rule.mk pats_qubits resp_qubits, Rule.mk pats_ansatz resp_ansatz, Rule.mk pats_optimizer resp_optimizer, Rule.mk pats_diseases resp_diseases, Rule.mk pats_how_to_use resp_how_to_use, Rule.mk pats_greeting resp_greeting, Rule.mk pats_thanks resp_thanks, Rule.mk pats_goodbye resp_goodbye]
def vqe_no_results_text : String := "❌ **No VQE Results Available**\n\nYou haven\x27t run VQE optimization yet!\n\n**To run VQE:**\n1. Go to **🏠 Home** page → Enter protein sequence\n2. Go to **⚙️ Configuration** → Set parameters\n3. Go to **🚀 Run VQE** → Click \"Start Optimization\"\n4. Go to **📊 Results** → View analysis\n\nNeed help with any step? Just ask! 😊"
def vqe_success_pre : String := "✅ **VQE Optimization Complete!**\n\n**Your Results:**\n"
def vqe_success_post : String := "\n\n**What this means:**\nThe VQE algorithm successfully found a low-energy protein conformation. \n\n**Lower energy** = More stable structure = More accurate prediction\n\nThe algorithm explored the quantum state space and converged to what is likely the ground state (most stable folding).\n\nWant to understand the results better? Ask me:\n- \"What is ground state energy?\"\n- \"How accurate is this?\"\n- \"What\x27s next?\"\n\nGo to **📊 Results** page for detailed visualizations! 🎉"
def vqe_generic_text : String := "VQE results are available. Check the **📊 Results** page for detailed analysis and 3D structure visualization!"
def vqe_except_text : String := "VQE has been run. Visit the **📊 Results** page to see energy convergence plots and predicted 3D structure!"
def seq_none_text : String := "❌ **No Protein Sequence Loaded**\n\nYou need to load a protein sequence first!\n\n**Option 1: Manual Entry** ✍️\n- Go to **🏠 Home** page\n- Select \"Manual Entry\"\n- Type amino acid sequence (e.g., ACDEFGHIKLMNPQRSTVWY)\n- Click \"Validate Sequence\"\n\n**Option 2: Sample Dataset** 📂\n- Go to **🏠 Home** page\n- Select \"Load from Dataset\"\n- Choose from pre-loaded examples\n- Click \"Use this sequence\"\n\n**Option 3: Database** 🌐\n- Enter **PDB ID** (e.g., 1YCR)\n- Or **UniProt ID** (e.g., P12345)\n- Click \"Fetch\"\n\nWhich method would you like to use? 🤔"
def seq_loaded_p1 : String := "✅ **Current Protein Sequence Loaded**\n\n```\n"
def seq_loaded_p2 : String := "\n```\n\n**Sequence Details:**\n🔹 **Length**: "
def seq_loaded_p3 : String := " amino acids\n🔹 **Estimated Qubits**: ~"
def seq_loaded_p4 : String := " qubits\n🔹 **Status**: Ready for VQE simulation ✅\n\n**Next Steps:**\n1. Go to **⚙️ Configuration** → Set VQE parameters\n2. Choose ansatz, optimizer, iterations\n3. Save configuration\n4. Proceed to **🚀 Run VQE**\n\nNeed help choosing parameters? Just ask:\n- \"Which ansatz should I use?\"\n- \"Which optimizer is best?\"\n- \"How many iterations?\"\n\nReady to proceed! 🚀"
def fb_energy_text : String := "**About Energy in Protein Folding** ⚡\n\n**Hartree Unit:**\n- Atomic unit of energy\n- 1 Hartree ≈ 27.2 eV ≈ 627 kcal/mol\n- Used in quantum chemistry\n\n**Energy Concepts:**\n🔹 **Lower energy** = More stable structure\n🔹 **Ground state** = Lowest possible energy\n🔹 **Convergence** = Energy stops changing significantly\n\n**VQE Goal:**\nFind the ground state energy to predict the most stable (and biologically relevant) protein structure.\n\nThe energy landscape has many local minima, but we want the **global minimum**! 🎯\n\nWant to know more about VQE optimization? Just ask!"
def fb_export_text : String := "**Exporting Results** 📥\n\n**Currently Available:**\n✅ Screenshots of visualizations\n✅ Copy/paste text results\n✅ Browser print function\n\n**Coming Soon:**\n🔜 **PDB File Export**: Standard protein structure format\n🔜 **Full Report PDF**: Comprehensive analysis document\n🔜 **CSV Data Export**: Raw numerical data\n🔜 **FASTA Sequence**: Sequence format export\n\n**For Now:**\n- Take screenshots of 3D structure\n- Copy energy values from Results page\n- Print page as PDF\n\nIs there specific data you need? Let me know! 😊"
def fb_perf_text : String := "**VQE Performance & Runtime** ⏱️\n\n**Typical Execution Time:**\n🟢 Small (5-10 aa): 1-2 minutes\n🟡 Medium (10-20 aa): 3-5 minutes  \n🔴 Large (20+ aa): 5-10+ minutes\n\n**Factors Affecting Speed:**\n1️⃣ **Sequence Length** - More residues = more qubits = slower\n2️⃣ **Iterations** - Higher count = longer but more accurate\n3️⃣ **Ansatz** - EfficientSU2 slower than RealAmplitudes\n4️⃣ **Optimizer** - L-BFGS-B fastest, COBYLA slowest\n\n**Optimization Tips:**\n💡 Start with 50-100 iterations for testing\n💡 Use RealAmplitudes for quick explorations\n💡 Increase to 200-500 for production runs\n💡 Choose L-BFGS-B for simulators\n\n**Hardware:**\n🖥️ Runs on CPU (no GPU needed)\n🖥️ 4GB RAM recommended\n🖥️ Modern browser for visualizations\n\nQuestions about performance? Ask away! 🚀"
def fb_generic_text : String := "I can help you with many topics! 🤓\n\n**Popular Questions:**\n\n**VQE & Quantum:**\n- \"What is VQE?\"\n- \"How does VQE work?\"\n- \"Why use quantum computing?\"\n- \"How many qubits needed?\"\n\n**Protein Folding:**\n- \"How do proteins fold?\"\n- \"What is protein structure?\"\n- \"Show me my protein\"\n\n**Configuration:**\n- \"Which ansatz should I use?\"\n- \"Which optimizer is best?\"\n- \"How many iterations?\"\n\n**Diseases:**\n- \"What diseases are caused by misfolding?\"\n- \"Tell me about Alzheimer\x27s\"\n\n**Dashboard:**\n- \"How do I use this?\"\n- \"Getting started guide\"\n- \"Show me my results\"\n\nTry asking a more specific question, and I\x27ll give you a detailed answer! 💪"
def fb_energy_keywords : List String := ["energy", "hartree", "convergence", "ground state"]
def fb_export_keywords : List String := ["download", "export", "save", "pdb file"]
def fb_perf_keywords : List String := ["fast", "slow", "speed", "time", "performance", "runtime"]
def kb_vqe_text : String := "VQE (Variational Quantum Eigensolver) is a hybrid quantum-classical algorithm that optimizes a parameterized quantum circuit to approximate the ground state of a Hamiltonian. It uses a classical optimizer to update circuit parameters."
def kb_loaded_pre : String := "Currently loaded protein (preview): "
def kb_loaded_post : String := ". Protein folding depends on sequence interactions and environment."
def kb_protein_text : String := "Protein folding is the process by which an amino acid chain adopts its 3D shape; it\x27s driven by interactions between residues and the solvent."
def kb_quantum_text : String := "Quantum computing leverages superposition and entanglement to perform computations that are hard for classical machines; qubits are the basic unit."
def kb_default_text : String := "I don\x27t have an external API connection right now; try asking about \x27VQE\x27, \x27protein folding\x27, or \x27quantum computing\x27."

/-- First matching rule wins: scan the rule list in order, testing every pattern
of each rule against the normalized query; return the response string of that rule. -/
def findMatch : List Rule → String → Option String
  | [], _ => none
  | r :: rest, ql => if ruleMatches r.patterns ql then some r.response else findMatch rest ql

/-- Python `s.replace` deleting every occurrence of `...`: remove the
non-overlapping occurrences of three consecutive dots, scanning left to right. -/
def stripEllipsis : List Char → List Char
  | [] => []
  | [c] => [c]
  | [c1, c2] => [c1, c2]
  | c1 :: c2 :: c3 :: t =>
    if c1 = '.' && c2 = '.' && c3 = '.' then stripEllipsis t
    else c1 :: stripEllipsis (c2 :: c3 :: t)

namespace BuiltInChatbot

/-- `BuiltInChatbot._get_vqe_results`: context-aware VQE results response.
The `try` block of the source only stringifies the value and tests for the
substring `final_energy`; on string-valued results neither operation can raise,
so the embedded function is total and the `except` arm (`vqe_except_text`) is
unreachable. -/
def _get_vqe_results (context : Option Ctx) : String :=
  match context with
  | none => vqe_no_results_text
  | some c =>
    match c.vqe_results with
    | none => vqe_no_results_text
    | some s =>
      if s = "" then vqe_no_results_text
      else if s = "Not run yet" then vqe_no_results_text
      else if strContainsSub s "final_energy" then vqe_success_pre ++ s ++ vqe_success_post
      else vqe_generic_text

/-- The f-string returned by `_get_protein_sequence` when a sequence is loaded,
as a function of the interpolated display string and computed length
(`{seq_display}`, `{seq_len}`, `{(seq_len-1)*3}`). -/
def proteinLoadedResponse (seq_display : String) (seq_len : Nat) : String :=
  seq_loaded_p1 ++ seq_display ++ seq_loaded_p2 ++ toString seq_len ++ seq_loaded_p3 ++
    toString (((seq_len : Int) - 1) * 3) ++ seq_loaded_p4

/-- `BuiltInChatbot._get_protein_sequence`: context-aware protein sequence
response.  `seq_display` is the stored value truncated to 50 characters plus an
ellipsis for display; `seq_len` is the length of the stored value with every
occurrence of `...` removed. -/
def _get_protein_sequence (context : Option Ctx) : String :=
  match context with
  | none => seq_none_text
  | some c =>
    match c.current_protein with
    | none => seq_none_text
    | some seq =>
      if seq = "" then seq_none_text
      else if seq = "None" then seq_none_text
      else
        let seq_display := if seq.length ≤ 50 then seq else strTake seq 50 ++ "..."
        let seq_len := (stripEllipsis seq.toList).length
        proteinLoadedResponse seq_display seq_len

/-- `BuiltInChatbot._get_fallback`: keyword-group fallback when no pattern rule
matched (the context argument is unused, as in the source). -/
def _get_fallback (query : String) (context : Option Ctx) : String :=
  if fb_energy_keywords.any (fun w => strContainsSub query w) then fb_energy_text
  else if fb_export_keywords.any (fun w => strContainsSub query w) then fb_export_text
  else if fb_perf_keywords.any (fun w => strContainsSub query w) then fb_perf_text
  else fb_generic_text

/-- `BuiltInChatbot.get_response`: lower-case and trim the query, scan the rules
in insertion order (first match wins), resolve the two context sentinels through
the dedicated formatters, and fall back to `_get_fallback` when nothing matched. -/
def get_response (query : String) (context : Option Ctx) : String :=
  let query_lower := strStrip (strLower query)
  match findMatch kbRules query_lower with
  | some t =>
    if t = "CONTEXT_VQE_RESULTS" then _get_vqe_results context
    else if t = "CONTEXT_PROTEIN_SEQUENCE" then _get_protein_sequence context
    else t
  | none => _get_fallback query_lower context

end BuiltInChatbot

/-- The `current_protein` value written by the session-context maintainer
(`st.session_state.chat_context.update`, line 1470): the loaded sequence is
truncated to a 50-character preview plus `...` when longer than 50, an empty
sequence is stored as the string `"None"`, otherwise the sequence itself. -/
def storedProtein (protein_sequence : String) : String :=
  if protein_sequence ≠ "" ∧ protein_sequence.length > 50 then strTake protein_sequence 50 ++ "..."
  else if protein_sequence = "" then "None" else protein_sequence

/-- The `vqe_results` value written by the session-context maintainer (line
1469): the `str` of the results record when one exists (modelled as the already
stringified record), else the sentinel `"Not run yet"`. -/
def storedVqe (vqe_results : Option String) : String :=
  match vqe_results with
  | none => "Not run yet"
  | some s => s

/-- The session-context maintainer (lines 1467-1471): update the
`current_protein` and `vqe_results` fields from the session state before the
next query is routed. -/
def update_chat_context (protein_sequence : String) (vqe_results : Option String) (prev : Ctx) : Ctx :=
  Ctx.mk (some (storedProtein protein_sequence)) (some (storedVqe vqe_results)) prev.last_analysis

/-- The 20 standard amino-acid letters (`AMINO_ACIDS`, line 843). -/
def AMINO_ACIDS : List Char :=
  ['A', 'C', 'D', 'E', 'F', 'G', 'H', 'I', 'K', 'L',
   'M', 'N', 'P', 'Q', 'R', 'S', 'T', 'V', 'W', 'Y']

/-- `validate_sequence` (line 879): upper-case and strip the input, then check
that every character is a standard amino-acid letter. -/
def validate_sequence (sequence : String) : Bool :=
  (strStrip (strUpper sequence)).toList.all (fun aa => AMINO_ACIDS.contains aa)

/-- The record returned by `run_classical_simulation`. -/
structure ClassicalResult where
  final_energy : ℚ
  method : String
  note : String

/-- `run_classical_simulation` (lines 982-997).  `penaltySample` models the
value drawn by `np.random.uniform(0.8, 1.5)` (a float, embedded as an exact
rational); the code takes its absolute value and adds it to the VQE energy. -/
def run_classical_simulation (sequence : String) (vqe_energy : ℚ) (penaltySample : ℚ) : ClassicalResult :=
  let energy_penalty := |penaltySample|
  ClassicalResult.mk (vqe_energy + energy_penalty) "Classical Random Search"
    "Classical algorithms get trapped in local energy minima"

namespace ai_backends

/-- `ai_backends.local_kb_response` (lines 95-115): the local knowledge-base
answer, keyed on case-insensitive substrings of the query. -/
def local_kb_response (query : String) (context : Ctx) : String :=
  let q := strLower query
  if strContainsSub q "vqe" || strContainsSub q "variational" then kb_vqe_text
  else if strContainsSub q "protein" || strContainsSub q "fold" || strContainsSub q "structure" then
    let current := match context.current_protein with
      | none => "no sequence loaded"
      | some s => if s = "" then "no sequence loaded" else s
    if current ≠ "" ∧ current ≠ "None" ∧ current ≠ "no sequence loaded" then
      kb_loaded_pre ++ current ++ kb_loaded_post
    else kb_protein_text
  else if strContainsSub q "quantum" || strContainsSub q "qubit" || strContainsSub q "entanglement" then
    kb_quantum_text
  else kb_default_text

/-- Python `model_choice and name in model_choice.lower()`: the selector is a
non-empty string containing `name` case-insensitively. -/
def selector_names (model_choice : Option String) (name : String) : Bool :=
  match model_choice with
  | none => false
  | some s => !(s == "") && strContainsSub (strLower s) name

/-- The diagnostic prefix computed in the default branch of
`ai_backends.get_response` (lines 150-155) by substring inspection of the first
error text of the first provider: quota / configuration / generic buckets. -/
def error_diagnostic (e1 : String) : String :=
  if strContainsSub (strLower e1) "quota" || strContainsSub e1 "429" then
    "Gemini API quota exceeded. "
  else if strContainsSub e1 "400" then
    "Gemini API configuration error (check key permissions). "
  else "API error (" ++ strTake e1 100 ++ "). "

/-- `ai_backends.get_response` (lines 118-157).  The two provider calls
(`get_gemini_response`, `get_chatgpt_response`) perform network IO and are
modelled by the parameters `gemini_call` and `chatgpt_call`: `.ok r` is a call
returning text `r`, `.error e` a call raising an exception with message `e`
(each provider is called at most once along any branch, so one outcome per
provider suffices). -/
def get_response (gemini_call chatgpt_call : Except String String)
    (model_choice : Option String) (query : String) (context : Ctx) : String :=
  if selector_names model_choice "gemini" then
    match gemini_call with
    | .ok r => r
    | .error e => "Gemini error: " ++ e ++ "\n\n" ++ local_kb_response query context
  else if selector_names model_choice "chatgpt" then
    match chatgpt_call with
    | .ok r => r
    | .error e =>
      match gemini_call with
      | .ok r => r
      | .error _ => "OpenAI error: " ++ e ++ "\n\n" ++ local_kb_response query context
  else
    match gemini_call with
    | .ok r => r
    | .error e1 =>
      match chatgpt_call with
      | .ok r => r
      | .error _ => error_diagnostic e1 ++ local_kb_response query context

end ai_backends

set_option maxRecDepth 100000

/-- Strings without a dot are fixed points of `stripEllipsis`. -/
theorem stripEllipsis_of_no_dot (l : List Char) (h : '.' ∉ l) : stripEllipsis l = l := by
  induction l with
  | nil => rfl
  | cons c t ih =>
    have hc : ¬(c = '.') := fun e => h (e ▸ List.mem_cons_self c t)
    have ht : '.' ∉ t := fun m => h (List.mem_cons_of_mem _ m)
    match t with
    | [] => rfl
    | [c2] => rfl
    | c2 :: c3 :: t' =>
      have hstep : stripEllipsis (c :: c2 :: c3 :: t') =
          if c = '.' && c2 = '.' && c3 = '.' then stripEllipsis t'
          else c :: stripEllipsis (c2 :: c3 :: t') := rfl
      rw [hstep, if_neg (by simp [hc]), ih ht]

/-- C1 (amended): for a loaded amino-acid sequence of length `L ≤ 50` the
maintainer stores the sequence unchanged and a sequence query reports exactly
`L` amino acids and `3*(L-1)` qubits. -/
theorem c1_sequence_roundtrip (S : String) (hne : S ≠ "") (hlen : S.length ≤ 50)
    (hchars : S.toList.all (fun c => AMINO_ACIDS.contains c) = true)
    (vqe : Option String) (prev : Ctx) :
    BuiltInChatbot.get_response "sequence" (some (update_chat_context S vqe prev))
      = BuiltInChatbot.proteinLoadedResponse S S.length := by
  have hmem : ∀ c ∈ S.toList, AMINO_ACIDS.contains c = true := by
    simpa [List.all_eq_true] using hchars
  have hdot : '.' ∉ S.toList := fun hm => absurd (hmem '.' hm) (by decide)
  have hnone : S ≠ "None" := by
    intro hEq
    have ho : 'o' ∈ S.toList := by rw [hEq]; decide
    exact absurd (hmem 'o' ho) (by decide)
  have hng : ¬(S ≠ "" ∧ S.length > 50) := fun hh => absurd hlen (by omega)
  have hstored : storedProtein S = S := by
    unfold storedProtein
    rw [if_neg hng, if_neg hne]
  have hctx : update_chat_context S vqe prev
      = Ctx.mk (some S) (some (storedVqe vqe)) prev.last_analysis := by
    unfold update_chat_context; rw [hstored]
  rw [hctx]
  have hroute : BuiltInChatbot.get_response "sequence"
        (some (Ctx.mk (some S) (some (storedVqe vqe)) prev.last_analysis))
      = BuiltInChatbot._get_protein_sequence
        (some (Ctx.mk (some S) (some (storedVqe vqe)) prev.last_analysis)) := rfl
  rw [hroute]
  simp only [BuiltInChatbot._get_protein_sequence]
  rw [if_neg hne, if_neg hnone, if_pos hlen, stripEllipsis_of_no_dot _ hdot]
  rfl

/-- Witness for the amended theorem of C1 at the concrete sequence `ACDE`. -/
theorem c1_sequence_roundtrip_witness :
    ("ACDE" : String) ≠ "" ∧ ("ACDE" : String).length ≤ 50 ∧
    ("ACDE" : String).toList.all (fun c => AMINO_ACIDS.contains c) = true ∧
    BuiltInChatbot.get_response "sequence" (some (update_chat_context "ACDE" none (Ctx.mk none none none)))
      = BuiltInChatbot.proteinLoadedResponse "ACDE" 4 :=
  ⟨by decide, by decide, by decide,
   c1_sequence_roundtrip "ACDE" (by decide) (by decide) (by decide) none (Ctx.mk none none none)⟩

/-- C1 (counterexample): a loaded sequence of 51 alanines is stored truncated,
and the response reports 50 amino acids (and 147 qubits), not 51 (and 150). -/
theorem c1_counterexample :
    BuiltInChatbot.get_response "sequence"
        (some (update_chat_context "AAAAAAAAAAAAAAAAAAAAAAAAAAAAAAAAAAAAAAAAAAAAAAAAAAA" none (Ctx.mk none none none)))
      = BuiltInChatbot.proteinLoadedResponse ("AAAAAAAAAAAAAAAAAAAAAAAAAAAAAAAAAAAAAAAAAAAAAAAAAA" ++ "...") 50
    ∧ BuiltInChatbot.proteinLoadedResponse ("AAAAAAAAAAAAAAAAAAAAAAAAAAAAAAAAAAAAAAAAAAAAAAAAAA" ++ "...") 50
      ≠ BuiltInChatbot.proteinLoadedResponse ("AAAAAAAAAAAAAAAAAAAAAAAAAAAAAAAAAAAAAAAAAAAAAAAAAA" ++ "...") 51
    ∧ strContainsSub (BuiltInChatbot.get_response "sequence"
        (some (update_chat_context "AAAAAAAAAAAAAAAAAAAAAAAAAAAAAAAAAAAAAAAAAAAAAAAAAAA" none (Ctx.mk none none none))))
        "**Length**: 51 amino acids" = false :=
  ⟨rfl, by decide, by decide⟩

/-- C2 (code bug): the query `show me my results` with `vqe_results` equal to
the sentinel `Not run yet` matches no rule (the patterns `\bresult\b` and
`\bshow.*result\b` both fail on the plural `results`) and yields the generic
example-questions menu, not the no-results guidance block. -/
theorem c2_failing_input_eval :
    BuiltInChatbot.get_response "show me my results" (some (Ctx.mk none (some "Not run yet") none))
      = fb_generic_text
    ∧ fb_generic_text ≠ vqe_no_results_text
    ∧ ruleMatches pats_vqe_results_check
        (strStrip (strLower "show me my results")) = false :=
  ⟨rfl, by decide, by decide⟩

/-- C3 (counterexample): with the selector naming Gemini, a failing Gemini call
and a succeeding ChatGPT call, the ChatGPT answer is not returned — the code
falls back directly to the prefixed local answer without attempting the other
provider. -/
theorem c3_counterexample :
    ai_backends.get_response (Except.error "boom") (Except.ok "CHATGPT ANSWER")
        (some "Gemini (Google)") "hi" (Ctx.mk none none none)
      = "Gemini error: boom\n\n" ++ kb_default_text
    ∧ ai_backends.get_response (Except.error "boom") (Except.ok "CHATGPT ANSWER")
        (some "Gemini (Google)") "hi" (Ctx.mk none none none) ≠ "CHATGPT ANSWER" :=
  ⟨rfl, by decide⟩

/-- C3 (amended): a Gemini selector calls only Gemini and on failure returns the
`Gemini error:`-prefixed local answer directly; a ChatGPT selector calls ChatGPT
first, on failure attempts Gemini, and only if that also fails returns the
`OpenAI error:`-prefixed local answer. -/
theorem c3_selector_chain (gem chat : Except String String) (sel q : String) (ctx : Ctx)
    (e e2 : String) :
    (ai_backends.selector_names (some sel) "gemini" = true → gem = Except.error e →
      ai_backends.get_response gem chat (some sel) q ctx
        = "Gemini error: " ++ e ++ "\n\n" ++ ai_backends.local_kb_response q ctx)
    ∧ (ai_backends.selector_names (some sel) "gemini" = false →
       ai_backends.selector_names (some sel) "chatgpt" = true → chat = Except.error e →
       (∀ r, gem = Except.ok r → ai_backends.get_response gem chat (some sel) q ctx = r)
       ∧ (gem = Except.error e2 → ai_backends.get_response gem chat (some sel) q ctx
            = "OpenAI error: " ++ e ++ "\n\n" ++ ai_backends.local_kb_response q ctx)) := by
  refine ⟨fun hg he => ?_, fun hg hc he => ⟨fun r hr => ?_, fun hr => ?_⟩⟩
  · simp [ai_backends.get_response, hg, he]
  · simp [ai_backends.get_response, hg, hc, he, hr]
  · simp [ai_backends.get_response, hg, hc, he, hr]

/-- Witness for the amended theorem of C3: both selector branches at concrete inputs. -/
theorem c3_selector_chain_witness :
    ai_backends.selector_names (some "Gemini (Google)") "gemini" = true ∧
    ai_backends.get_response (Except.error "down") (Except.ok "unused")
        (some "Gemini (Google)") "hello" (Ctx.mk none none none)
      = "Gemini error: " ++ "down" ++ "\n\n"
        ++ ai_backends.local_kb_response "hello" (Ctx.mk none none none) ∧
    ai_backends.selector_names (some "ChatGPT (OpenAI)") "gemini" = false ∧
    ai_backends.selector_names (some "ChatGPT (OpenAI)") "chatgpt" = true ∧
    ai_backends.get_response (Except.error "gdown") (Except.error "cdown")
        (some "ChatGPT (OpenAI)") "hello" (Ctx.mk none none none)
      = "OpenAI error: " ++ "cdown" ++ "\n\n"
        ++ ai_backends.local_kb_response "hello" (Ctx.mk none none none) :=
  ⟨by decide,
   (c3_selector_chain (Except.error "down") (Except.ok "unused") "Gemini (Google)" "hello"
      (Ctx.mk none none none) "down" "down").1 (by decide) rfl,
   by decide, by decide,
   ((c3_selector_chain (Except.error "gdown") (Except.error "cdown") "ChatGPT (OpenAI)" "hello"
      (Ctx.mk none none none) "cdown" "gdown").2 (by decide) (by decide) rfl).2 rfl⟩

/-- C4: for every provider behaviour, selector, query and context the fallback
chain returns a string that is either the successful answer of a provider or a
diagnostic prefix followed by the local knowledge-base answer; no provider
error escapes. -/
theorem c4_always_string (gem chat : Except String String) (m : Option String)
    (q : String) (ctx : Ctx) :
    (∃ r, gem = Except.ok r ∧ ai_backends.get_response gem chat m q ctx = r)
    ∨ (∃ r, chat = Except.ok r ∧ ai_backends.get_response gem chat m q ctx = r)
    ∨ (∃ d, ai_backends.get_response gem chat m q ctx
          = d ++ ai_backends.local_kb_response q ctx) := by
  unfold ai_backends.get_response
  cases hg : ai_backends.selector_names m "gemini" with
  | true =>
    cases gem with
    | ok r => exact Or.inl ⟨r, rfl, by simp⟩
    | error e =>
      refine Or.inr (Or.inr ⟨"Gemini error: " ++ e ++ "\n\n", ?_⟩)
      simp [String.append_assoc]
  | false =>
    cases hc : ai_backends.selector_names m "chatgpt" with
    | true =>
      cases chat with
      | ok r => exact Or.inr (Or.inl ⟨r, rfl, by simp⟩)
      | error e =>
        cases gem with
        | ok r => exact Or.inl ⟨r, rfl, by simp⟩
        | error e2 =>
          refine Or.inr (Or.inr ⟨"OpenAI error: " ++ e ++ "\n\n", ?_⟩)
          simp [String.append_assoc]
    | false =>
      cases gem with
      | ok r => exact Or.inl ⟨r, rfl, by simp⟩
      | error e1 =>
        cases chat with
        | ok r => exact Or.inr (Or.inl ⟨r, rfl, by simp⟩)
        | error e2 => exact Or.inr (Or.inr ⟨ai_backends.error_diagnostic e1, by simp⟩)

/-- C5: in the default (no-selector) chain, when the first-attempted provider
(Gemini) fails with a quota-type error (text containing `quota` or `429`) and
the second provider also fails, the result is the quota-specific diagnostic
followed by the local knowledge-base answer. -/
theorem c5_quota_diagnostic (e1 e2 q : String) (ctx : Ctx)
    (h : (strContainsSub (strLower e1) "quota" || strContainsSub e1 "429") = true) :
    ai_backends.get_response (Except.error e1) (Except.error e2) none q ctx
      = "Gemini API quota exceeded. " ++ ai_backends.local_kb_response q ctx := by
  simp [ai_backends.get_response, ai_backends.selector_names, ai_backends.error_diagnostic, h]

/-- Witness for C5 at a concrete quota-style error text. -/
theorem c5_quota_diagnostic_witness :
    (strContainsSub (strLower "Error 429: quota exceeded") "quota"
      || strContainsSub "Error 429: quota exceeded" "429") = true ∧
    ai_backends.get_response (Except.error "Error 429: quota exceeded")
        (Except.error "openai down") none "tell me about vqe" (Ctx.mk none none none)
      = "Gemini API quota exceeded. "
        ++ ai_backends.local_kb_response "tell me about vqe" (Ctx.mk none none none) :=
  ⟨by decide,
   c5_quota_diagnostic "Error 429: quota exceeded" "openai down" "tell me about vqe"
     (Ctx.mk none none none) (by decide)⟩

/-- C6: any query matching a pattern of the `vqe_what` rule (the first rule of
the table) yields the literal VQE-definition text, whatever the context. -/
theorem c6_vqe_literal (q : String) (ctx : Option Ctx)
    (h : ruleMatches pats_vqe_what (strStrip (strLower q)) = true) :
    BuiltInChatbot.get_response q ctx = resp_vqe_what := by
  have hfind : findMatch kbRules (strStrip (strLower q)) = some resp_vqe_what := by
    simp [kbRules, findMatch, h]
  simp only [BuiltInChatbot.get_response]
  rw [hfind]
  show (if resp_vqe_what = "CONTEXT_VQE_RESULTS" then BuiltInChatbot._get_vqe_results ctx
    else if resp_vqe_what = "CONTEXT_PROTEIN_SEQUENCE" then BuiltInChatbot._get_protein_sequence ctx
    else resp_vqe_what) = resp_vqe_what
  rw [if_neg (by decide), if_neg (by decide)]

/-- Witness for C6: the scenario query `What is VQE?` with empty context. -/
theorem c6_vqe_literal_witness :
    ruleMatches pats_vqe_what (strStrip (strLower "What is VQE?")) = true ∧
    BuiltInChatbot.get_response "What is VQE?" none = resp_vqe_what :=
  ⟨by decide, c6_vqe_literal "What is VQE?" none (by decide)⟩

/-- C7: the router is total — when no rule matches, the explicit fallback
generator answers, and the empty query matches no rule and gets the generic
menu of example questions. -/
theorem c7_router_total (q : String) (ctx : Option Ctx) :
    (findMatch kbRules (strStrip (strLower q)) = none →
      BuiltInChatbot.get_response q ctx
        = BuiltInChatbot._get_fallback (strStrip (strLower q)) ctx)
    ∧ findMatch kbRules (strStrip (strLower "")) = none
    ∧ BuiltInChatbot.get_response "" ctx = fb_generic_text := by
  refine ⟨fun h => ?_, by decide, rfl⟩
  simp only [BuiltInChatbot.get_response]
  rw [h]

/-- Witness for C7 at a concrete no-match query. -/
theorem c7_router_total_witness :
    findMatch kbRules (strStrip (strLower "zzzz qqqq")) = none ∧
    BuiltInChatbot.get_response "zzzz qqqq" none
      = BuiltInChatbot._get_fallback (strStrip (strLower "zzzz qqqq")) none :=
  ⟨by decide, (c7_router_total "zzzz qqqq" none).1 (by decide)⟩

/-- C8: with a results record present (not empty, not the sentinel), the
formatter is total and returns the generic results-available message whenever
the text does not contain `final_energy`. -/
theorem c8_malformed_results_safe (c : Ctx) (s : String) (hv : c.vqe_results = some s)
    (h1 : s ≠ "") (h2 : s ≠ "Not run yet")
    (h3 : strContainsSub s "final_energy" = false) :
    BuiltInChatbot._get_vqe_results (some c) = vqe_generic_text := by
  simp only [BuiltInChatbot._get_vqe_results]
  rw [hv]
  simp [h1, h2, h3]

/-- Witness for C8 at concrete malformed result text. -/
theorem c8_malformed_results_safe_witness :
    (Ctx.mk none (some "garbled @@ 123") none).vqe_results = some "garbled @@ 123" ∧
    ("garbled @@ 123" : String) ≠ "" ∧ ("garbled @@ 123" : String) ≠ "Not run yet" ∧
    strContainsSub "garbled @@ 123" "final_energy" = false ∧
    BuiltInChatbot._get_vqe_results (some (Ctx.mk none (some "garbled @@ 123") none))
      = vqe_generic_text :=
  ⟨rfl, by decide, by decide, by decide,
   c8_malformed_results_safe (Ctx.mk none (some "garbled @@ 123") none) "garbled @@ 123"
     rfl (by decide) (by decide) (by decide)⟩

/-- C9: the synthetic classical baseline is the VQE energy plus the sampled
penalty from [0.8, 1.5], hence strictly higher than the quantum result. -/
theorem c9_classical_always_worse (seq : String) (e p : ℚ)
    (h1 : 0.8 ≤ p) (h2 : p ≤ 1.5) :
    (run_classical_simulation seq e p).final_energy = e + p
    ∧ e < (run_classical_simulation seq e p).final_energy := by
  have hp0 : (0:ℚ) < p := lt_of_lt_of_le (by norm_num) h1
  have habs : |p| = p := abs_of_pos hp0
  constructor
  · simp [run_classical_simulation, habs]
  · simp only [run_classical_simulation, habs]
    linarith

/-- Witness for C9 at energy 0 and penalty 1. -/
theorem c9_classical_always_worse_witness :
    (0.8 : ℚ) ≤ 1 ∧ (1 : ℚ) ≤ 1.5 ∧
    (run_classical_simulation "ACDE" 0 1).final_energy = 0 + 1 ∧
    (0:ℚ) < (run_classical_simulation "ACDE" 0 1).final_energy :=
  ⟨by norm_num, by norm_num,
   (c9_classical_always_worse "ACDE" 0 1 (by norm_num) (by norm_num)).1,
   (c9_classical_always_worse "ACDE" 0 1 (by norm_num) (by norm_num)).2⟩

/-- C10: `validate_sequence` accepts exactly the strings whose upper-cased,
stripped form consists of standard amino-acid letters; in particular the empty
string is accepted. -/
theorem c10_validate_charwise (s : String) :
    (validate_sequence s = true ↔
      ∀ c ∈ (strStrip (strUpper s)).toList, c ∈ AMINO_ACIDS)
    ∧ validate_sequence "" = true := by
  constructor
  · unfold validate_sequence
    rw [List.all_eq_true]
    constructor
    · intro h c hc
      have := h c hc
      simpa [List.contains, List.elem_iff] using this
    · intro h c hc
      have := h c hc
      simpa [List.contains, List.elem_iff] using this
  · decide
